import Mathlib

/-!
Verification of the moler observation runtime core against its source.

The development shallowly embeds:
* `moler/observable_connection.py` — subscription registry, notification
  fan-out with weak-reference handling, shutdown;
* the concrete parsers `moler/cmd/unix/du.py`, `moler/cmd/unix/sudo.py`,
  `moler/events/unix/last_login.py`,
  `moler/cmd/juniper/configure/exit_configure.py`;
* the runner shim and `ConnectionObserver` terminal-state operations,
  whose sources are not part of this snapshot (only their tests are) —
  those definitions are modelled from the specification and say so in
  their doc comments.
-/

set_option autoImplicit false

namespace Moler

variable {α β γ δ σ V : Type}

/-! ## Subscription keys (`ObservableConnection._get_observer_key_value`) -/

/-- Observer key: the pair `(self-id, function-id)` computed by
`_get_observer_key_value`.  Identities are abstracted as naturals
(the Python code uses `instance_id`). -/
abbrev ObsKey := Nat × Nat

/-- The shape of the callback passed to `subscribe`/`unsubscribe`: either a
method bound to some subject (carrying the subject's identity and the
underlying class function's identity) or a free function. -/
inductive CallbackRef where
  /-- A bound method: `six.get_method_self` succeeds. -/
  | boundMethod (selfId : Nat) (funcId : Nat)
  /-- A free (unbound) callable: `six.get_method_self` raises
  `AttributeError`, so `self_id = 0` is used. -/
  | freeFunc (funcId : Nat)
  deriving DecidableEq

/-- Embeds `_get_observer_key_value`'s key computation: a bound method
yields `(instance_id(self), instance_id(func))`; a free function yields
the fixed sentinel `0` for the subject id. -/
def getObserverKey : CallbackRef → ObsKey
  | .boundMethod selfId funcId => (selfId, funcId)
  | .freeFunc funcId => (0, funcId)

/-! ## Python-dict model

The two registries `_observers` and `_connection_closed_handlers` are
Python dicts with unique keys and insertion order; we model them as
association lists where `subscribe` appends at the end (new-key insertion)
and `del` removes the entry of the key. -/

/-- Dict membership test (`key in d`). -/
def keyMem (k : ObsKey) (l : List (ObsKey × α)) : Bool :=
  l.any (fun kv => kv.1 = k)

/-- Dict lookup (`d[key]`), `none` when absent. -/
def keyLookup (k : ObsKey) : List (ObsKey × α) → Option α
  | [] => none
  | kv :: rest => if kv.1 = k then some kv.2 else keyLookup k rest

/-- Dict deletion (`del d[key]`): removes the entry of `k` (the first one;
keys are unique in reachable states). -/
def keyErase (k : ObsKey) : List (ObsKey × α) → List (ObsKey × α)
  | [] => []
  | kv :: rest => if kv.1 = k then rest else kv :: keyErase k rest

/-! ## ObservableConnection state -/

/-- State of an `ObservableConnection`.  `β` abstracts the stored observer
value `(self_or_none, weak_callback)`; `γ` abstracts close handlers.
`is_open` is the base `Connection`'s open flag (the base class is not in
this snapshot; the spec says `data_received` is a no-op when it is false
and `shutdown` clears it). -/
structure ObservableConnection (β γ : Type) where
  observers : List (ObsKey × β)
  closedHandlers : List (ObsKey × γ)
  is_open : Bool
  deriving DecidableEq

/-- Embeds `ObservableConnection.subscribe`: compute the key; if it is
already present in `_observers`, do nothing; otherwise store the value and
the close handler under that key (in both dicts). -/
def subscribe (cb : CallbackRef) (v : β) (h : γ)
    (c : ObservableConnection β γ) : ObservableConnection β γ :=
  let k := getObserverKey cb
  if keyMem k c.observers then c
  else { c with
          observers := c.observers ++ [(k, v)]
          closedHandlers := c.closedHandlers ++ [(k, h)] }

/-- Embeds `ObservableConnection.unsubscribe`: compute the key; if it is
present in both `_observers` and `_connection_closed_handlers`, delete it
from both; otherwise log a warning and change nothing. -/
def unsubscribe (cb : CallbackRef)
    (c : ObservableConnection β γ) : ObservableConnection β γ :=
  let k := getObserverKey cb
  if keyMem k c.observers ∧ keyMem k c.closedHandlers then
    { c with
       observers := keyErase k c.observers
       closedHandlers := keyErase k c.closedHandlers }
  else c

/-- True exactly when `unsubscribe` takes its warning branch
(`... were not both subscribed.`). -/
def unsubscribeWarns (cb : CallbackRef)
    (c : ObservableConnection β γ) : Bool :=
  let k := getObserverKey cb
  ¬ (keyMem k c.observers ∧ keyMem k c.closedHandlers)

/-! ## Shutdown (`ObservableConnection.shutdown`) -/

/-- Observable events of a `shutdown()` call, in order: each close-handler
invocation (the handler value that is called), then the moment the base
class marks the connection closed. -/
inductive ShutdownEvent (γ : Type) where
  | handlerCalled (h : γ)
  | markedClosed
  deriving DecidableEq

/-- Embeds the event order of `ObservableConnection.shutdown`: it iterates
`list(self._connection_closed_handlers.values())` calling each handler,
then calls `super().shutdown()`.  Modelled from the spec for the missing
base class: `Connection.shutdown` marks the connection closed. -/
def shutdownTrace (c : ObservableConnection β γ) : List (ShutdownEvent γ) :=
  (c.closedHandlers.map (fun kv => ShutdownEvent.handlerCalled kv.2))
    ++ [ShutdownEvent.markedClosed]

/-- Embeds the state effect of `ObservableConnection.shutdown`: the method
itself mutates nothing of the registries; `super().shutdown()` (modelled
from the spec: the base marks the connection closed) drops the open flag. -/
def shutdown (c : ObservableConnection β γ) : ObservableConnection β γ :=
  { c with is_open := false }

/-! ## Notification fan-out (`ObservableConnection.notify_observers`)

The stored observer value is `(self_or_none, weakref.proxy(func))`.
Dereferencing a `weakref.proxy` whose referent was collected raises
`ReferenceError` (which is a subclass of `Exception`).  `notify_observers`
iterates a snapshot of the values; per entry the source nests two
handlers: an outer `try` around the TRACE-format line and the call, with
`except ReferenceError: pass`, and an inner `try` around the call only,
with `except Exception:` that logs and continues. -/

/-- Exceptions relevant to `notify_observers`: `ReferenceError` raised by
a dead weak proxy, or any other exception (tagged by a natural). -/
inductive PyError where
  | referenceError
  | exc (n : Nat)
  deriving DecidableEq

/-- Every `PyError` models a Python `Exception` instance
(`ReferenceError` subclasses `Exception`), so an `except Exception`
clause catches all of them. -/
def isExceptionInstance : PyError → Bool := fun _ => true

/-- Matcher for the `except ReferenceError` clause. -/
def isReferenceError : PyError → Bool
  | .referenceError => true
  | .exc _ => false

/-- Semantics of a `try ... except <matching canCatch>:` block whose
handler falls through with state `fallback`. -/
def tryExcept (body : Except PyError σ) (canCatch : PyError → Bool)
    (fallback : σ) : Except PyError σ :=
  match body with
  | .ok w => .ok w
  | .error e => if canCatch e then .ok fallback else .error e

/-- A weak reference cell: either still live or already collected. -/
inductive WeakCell (α : Type) where
  | live (a : α)
  | dead

/-- One stored subscriber value, as built by `_get_observer_key_value`:
`selfOrNone` is `None` for free callbacks and a weak proxy to the subject
for bound methods; `funcCell` is a weak proxy to the callable, whose
effect on the world `σ` for a data chunk is embedded as a function that
may raise an exception (tag `n`). -/
structure NotifyEntry (δ σ : Type) where
  selfOrNone : Option (WeakCell Unit)
  funcCell : WeakCell (δ → σ → Except Nat σ)

/-- A subscription entry is dead when its weak target was collected. -/
def NotifyEntry.isDead (en : NotifyEntry δ σ) : Bool :=
  match en.funcCell, en.selfOrNone with
  | .dead, _ => true
  | _, some .dead => true
  | _, _ => false

/-- The TRACE log line `notifying {observer_function}(...)`: formatting a
dead weak proxy raises `ReferenceError`. -/
def fmtProxy (c : WeakCell α) : Except PyError Unit :=
  match c with
  | .dead => .error PyError.referenceError
  | .live _ => .ok ()

/-- The observer call inside the inner `try`:
`observer_function(data)` for free callbacks,
`observer_function(observer_self, data)` for bound methods.  Calling a
dead function proxy, or running a method body over a dead subject proxy,
raises `ReferenceError`; a live callback may raise its own exception. -/
def callEntry (data : δ) (w : σ) (en : NotifyEntry δ σ) : Except PyError σ :=
  match en.funcCell with
  | .dead => .error PyError.referenceError
  | .live f =>
    match en.selfOrNone with
    | some .dead => .error PyError.referenceError
    | _ =>
      match f data w with
      | .ok w' => .ok w'
      | .error n => .error (PyError.exc n)

/-- Per-entry body of the loop in `notify_observers`, with the source's
two nested handlers: `tryExcept ... isExceptionInstance` is the inner
`except Exception` (log and continue), `tryExcept ... isReferenceError`
is the outer `except ReferenceError: pass`. -/
def notifyOneE (data : δ) (w : σ) (en : NotifyEntry δ σ) :
    Except PyError σ :=
  tryExcept
    (match fmtProxy en.funcCell with
     | .error e => .error e
     | .ok _ => tryExcept (callEntry data w en) isExceptionInstance w)
    isReferenceError w

/-- Total per-entry step (the handlers of `notifyOneE` catch everything;
the `.error` branch is unreachable). -/
def notifyOne (data : δ) (w : σ) (en : NotifyEntry δ σ) : σ :=
  match notifyOneE data w en with
  | .ok w' => w'
  | .error _ => w

/-- Embeds `notify_observers`: iterate over a snapshot
`list(self._observers.values())` applying each subscriber to the data. -/
def notifyObservers (data : δ) (subs : List (NotifyEntry δ σ)) (w : σ) : σ :=
  subs.foldl (fun w en => notifyOne data w en) w

/-- Embeds `ObservableConnection.data_received`: a no-op when the
connection is not open, otherwise (after logging) decode and notify the
snapshot of current subscribers.  The codec is the identity default. -/
def connDataReceived (data : δ)
    (c : ObservableConnection (NotifyEntry δ σ) γ) (w : σ) : σ :=
  if c.is_open then notifyObservers data (c.observers.map Prod.snd) w
  else w

/-! ## ConnectionObserver terminal-state operations

`moler/connection_observer.py` is not part of this snapshot (only its
integration tests are), so the observer lifecycle is modelled from the
spec (§3 lifecycle, §4.C contract). -/

/-- Modelled from the spec: `ConnectionObserver` terminal-state fields —
`result`, `exception`, `cancelled` are unset until a terminal transition;
`done` is the sticky terminal flag; `all_data_received` is the buffer the
test observer `NetworkDownDetector` (src/test) appends each chunk to. -/
structure ConnObserver (V : Type) where
  done : Bool
  cancelled : Bool
  result : Option V
  exception : Option Nat
  all_data_received : List String
  deriving DecidableEq

/-- Modelled from the spec: `set_result(v)` — first call wins, sets
`done`; later calls to any terminal transition are silent no-ops. -/
def set_result (v : V) (o : ConnObserver V) : ConnObserver V :=
  if o.done then o else { o with done := true, result := some v }

/-- Modelled from the spec: `set_exception(e)` — first-wins terminal
transition to `DONE_FAIL`, storing the exception on the observer. -/
def set_exception (e : Nat) (o : ConnObserver V) : ConnObserver V :=
  if o.done then o else { o with done := true, exception := some e }

/-- Modelled from the spec: `cancel()` — first-wins terminal transition
to `CANCELLED`. -/
def cancel (o : ConnObserver V) : ConnObserver V :=
  if o.done then o else { o with done := true, cancelled := true }

/-- Errors of `result()`: not yet done, or re-raising the stored
exception. -/
inductive ResultError where
  | resultNotReady
  | raised (e : Nat)
  deriving DecidableEq

/-- Modelled from the spec: `result()` — fails with `ResultNotReady`
before `done`, re-raises a stored exception, else returns the value. -/
def obsResult (o : ConnObserver V) : Except ResultError (Option V) :=
  if o.done then
    match o.exception with
    | some e => .error (ResultError.raised e)
    | none => .ok o.result
  else .error ResultError.resultNotReady

/-! ## Runner shim and shutdown barrier

The runner sources are not part of this snapshot (only
`src/test/integration/py3test_runners.py` is), so the shim installed by
`submit` and the runner's `shutdown` flag are modelled from the spec
(§4.D):

    if runner.shutting_down or observer.done:  return
    try: observer.data_received(text)
    except e: observer.set_exception(e); unsubscribe()
    if observer.done: unsubscribe()
-/

/-- One observer as submitted to the runner: its state, its
`data_received` behaviour (which may raise, tag `Nat`), its future (the
runner never stores an exception on it), and whether its shim is still
subscribed on the connection. -/
structure SubmittedObserver (V : Type) where
  obs : ConnObserver V
  behavior : String → ConnObserver V → Except Nat (ConnObserver V)
  futureException : Option Nat
  subscribed : Bool

/-- World shared by one runner and one observable connection: the
runner's shutting-down flag, the connection's open flag, and the
submitted observers (each the target of one shim subscription). -/
structure RunnerWorld (V : Type) where
  shuttingDown : Bool
  connOpen : Bool
  observers : List (SubmittedObserver V)

/-- Modelled from the spec (§4.D shim pseudocode): drop the chunk when
the runner is shutting down or the observer is terminal; otherwise call
`observer.data_received`, converting an escaping exception into
`set_exception` plus unsubscription; unsubscribe once terminal. -/
def shimStep (shuttingDown : Bool) (data : String)
    (s : SubmittedObserver V) : SubmittedObserver V :=
  if shuttingDown ∨ s.obs.done then s
  else
    let s' :=
      match s.behavior data s.obs with
      | .ok o' => { s with obs := o' }
      | .error e => { s with obs := set_exception e s.obs, subscribed := false }
    if s'.obs.done then { s' with subscribed := false } else s'

/-- Delivery of one chunk fed into the connection's `data_received`: a
no-op when the connection is closed; otherwise each still-subscribed shim
runs on its own observer (a shim touches only its observer). -/
def worldDataReceived (data : String) (w : RunnerWorld V) : RunnerWorld V :=
  if w.connOpen then
    { w with
       observers := w.observers.map
         (fun s => if s.subscribed then shimStep w.shuttingDown data s else s) }
  else w

/-- Modelled from the spec: `Runner.shutdown()` flips the runner to
shutting-down, which every shim observes before forwarding. -/
def runnerShutdown (w : RunnerWorld V) : RunnerWorld V :=
  { w with shuttingDown := true }

/-! ## Parser embeddings

Concrete parsers raise the sentinel `ParsingDone` from their internal
parse methods; `on_new_line` wraps the chain in
`try ... except ParsingDone: pass`.  A parse step is embedded as a state
transformer that also reports the exception it raised, if any (Python
exceptions do not roll back state changes made before the raise). -/

/-- Exceptions that can flow out of a parse method: the `ParsingDone`
sentinel, or any other exception (tagged by a natural). -/
inductive PyExc where
  | parsingDone
  | other (n : Nat)
  deriving DecidableEq

/-- A parse step: new state plus the exception it raised, if any. -/
abbrev PStep (σ : Type) := σ → σ × Option PyExc

/-- Sequencing of parse calls: an exception from the first call skips the
second (it propagates). -/
def pseq (a b : PStep σ) : PStep σ := fun s =>
  match a s with
  | (s', some e) => (s', some e)
  | (s', none) => b s'

/-- Semantics of `try: ... except ParsingDone: pass` around a step. -/
def pcatch (a : PStep σ) : PStep σ := fun s =>
  match a s with
  | (s', some PyExc.parsingDone) => (s', none)
  | r => r

/-! ### String helpers (ASCII model of the regexes used) -/

/-- ASCII model of the regex class `\s`. -/
def isPySpace (c : Char) : Bool :=
  c = ' ' ∨ c = '\t' ∨ c = '\n' ∨ c = '\r' ∨ c = '\x0b' ∨ c = '\x0c'

/-- Value of a digit run (`int(match.group('NUMBER'))`). -/
def digitsToNat (cs : List Char) : Nat :=
  cs.foldl (fun n c => n * 10 + (c.toNat - '0'.toNat)) 0

/-- Whether `p` occurs at the head of `cs`. -/
def leadsWith : List Char → List Char → Bool
  | [], _ => true
  | _ :: _, [] => false
  | p :: ps, c :: cs => p = c && leadsWith ps cs

/-- Whether `p` occurs anywhere in `cs` (contiguously). -/
def containsSeq (p : List Char) : List Char → Bool
  | [] => p.isEmpty
  | c :: cs => leadsWith p (c :: cs) || containsSeq p cs

/-- Model of `re.search(p1 + ".*" + p2, cs)`: `p1` occurs at some
position and `p2` occurs somewhere after it. -/
def searchPats (p1 p2 : List Char) : List Char → Bool
  | [] => false
  | c :: cs =>
    (leadsWith p1 (c :: cs) && containsSeq p2 ((c :: cs).drop p1.length))
      || searchPats p1 p2 cs

/-- Python dict assignment `d[k] = v`: update in place when the key
exists, append otherwise. -/
def dictSet {κ ν : Type} [DecidableEq κ] (k : κ) (v : ν) :
    List (κ × ν) → List (κ × ν)
  | [] => [(k, v)]
  | kv :: rest => if kv.1 = k then (k, v) :: rest else kv :: dictSet k v rest

/-! ### Du (`moler/cmd/unix/du.py`) -/

/-- Model of a search for `Du._re_du`, the anchored regex
`(?P<NUMBER>^\d+)\s+(?P<DIRECTORY>\S*$)`: a leading digit run, a
non-empty whitespace run, then a space-free remainder reaching the end
of the line.  Returns the `DIRECTORY` and `NUMBER` groups on a match. -/
def duMatch (line : String) : Option (String × Int) :=
  let cs := line.toList
  let digits := cs.takeWhile Char.isDigit
  let afterDigits := cs.dropWhile Char.isDigit
  let spaces := afterDigits.takeWhile (fun c => isPySpace c)
  let dirPart := afterDigits.dropWhile (fun c => isPySpace c)
  if digits.isEmpty then none
  else if spaces.isEmpty then none
  else if dirPart.all (fun c => ¬ isPySpace c) then
    some (String.mk dirPart, Int.ofNat (digitsToNat digits))
  else none

/-- State of a `Du` command relevant to line parsing. -/
structure DuState where
  current_ret : List (String × Int)
  deriving DecidableEq

/-- Embeds `Du._parse_du`: on a regex match, store
`current_ret[DIRECTORY] = int(NUMBER)` and raise `ParsingDone`. -/
def du_parse_du (line : String) : PStep DuState := fun s =>
  match duMatch line with
  | some (dir, n) =>
    ({ current_ret := dictSet dir n s.current_ret }, some PyExc.parsingDone)
  | none => (s, none)

/-- Embeds `Du.on_new_line`: on a full line, `try` the parse method,
swallowing `ParsingDone`; then return `super().on_new_line(...)`.  The
generic base is not in this snapshot; `superStep` stands for it. -/
def du_on_new_line (superStep : PStep DuState) (line : String)
    (is_full_line : Bool) : PStep DuState := fun s =>
  match (if is_full_line then pcatch (du_parse_du line) s else (s, none)) with
  | (s1, none) => superStep s1
  | (s1, some e) => (s1, some e)

/-! ### Sudo (`moler/cmd/unix/sudo.py`) -/

/-- Exception tag for `CommandFailure`. -/
def commandFailureExc : Nat := 1

/-- Exception tag for the `AttributeError` raised when a `None`
`cmd_object` is dereferenced. -/
def attributeErrorExc : Nat := 2

/-- The embedded command object held by `Sudo.cmd_object` (abstracted to
the two attributes `Sudo` reads). -/
structure EmbeddedCmd where
  command_string : String
  current_ret : List (String × Int)
  deriving DecidableEq

/-- State of a `Sudo` command: its own flags plus the observer fields
(`done`, `exception`) it inherits (modelled from the spec, the
`ConnectionObserver` base is not in this snapshot), the lines sent back
over the connection, and the held command object. -/
structure SudoState where
  sudo_password : String
  sent_sudo_password : Bool
  sent_command_string : Bool
  done : Bool
  exception : Option Nat
  sentToConnection : List String
  cmd_object : Option EmbeddedCmd
  current_ret : List (String × Int)
  deriving DecidableEq

/-- Modelled from the spec: inherited `set_exception` — first call wins,
stores the exception and marks the observer done. -/
def sudoSetException (e : Nat) (s : SudoState) : SudoState :=
  if s.done then s else { s with done := true, exception := some e }

/-- The literal part of `Sudo._re_sudo_password`
(`\[sudo\] password for.*:`, compiled with `re.I`). -/
def sudoPasswordPat : List Char := "[sudo] password for".toList

/-- First literal of `Sudo._re_sudo_command_not_found` (`sudo:`). -/
def sudoNotFoundPat1 : List Char := "sudo:".toList

/-- Second literal of `Sudo._re_sudo_command_not_found`
(`command not found`). -/
def sudoNotFoundPat2 : List Char := "command not found".toList

/-- Embeds `Sudo._parse_sudo_password`: on a (case-insensitive) password
prompt, send the password once, and raise `ParsingDone` every time. -/
def sudo_parse_sudo_password (line : String) : PStep SudoState := fun s =>
  if searchPats sudoPasswordPat [':'] (line.toList.map Char.toLower) then
    let s' :=
      if ¬ s.sent_sudo_password then
        { s with
           sentToConnection := s.sentToConnection ++ [s.sudo_password]
           sent_sudo_password := true }
      else s
    (s', some PyExc.parsingDone)
  else (s, none)

/-- Embeds `Sudo._parse_command_not_found`: on `sudo:.*command not
found`, store a `CommandFailure` on the observer and raise
`ParsingDone`. -/
def sudo_parse_command_not_found (line : String) : PStep SudoState := fun s =>
  if searchPats sudoNotFoundPat1 sudoNotFoundPat2 line.toList then
    (sudoSetException commandFailureExc s, some PyExc.parsingDone)
  else (s, none)

/-- Embeds `Sudo._process_embedded_command`: forward the command string
once, then the (full-line-terminated) line, to the embedded command's
`data_received` (the parameter `cmdRecv`, since that class is not in
this snapshot), and mirror its `current_ret`.  `newline_seq` is the
`"\r\n"` set in `Sudo.__init__`.  A `None` `cmd_object` raises
`AttributeError` at the first attribute access. -/
def sudo_process_embedded
    (cmdRecv : String → EmbeddedCmd → EmbeddedCmd × Option PyExc)
    (line : String) (is_full_line : Bool) : PStep SudoState := fun s =>
  match s.cmd_object with
  | none => (s, some (PyExc.other attributeErrorExc))
  | some k0 =>
    let sentStep : SudoState × EmbeddedCmd × Option PyExc :=
      if ¬ s.sent_command_string then
        let s1 := { s with sent_command_string := true }
        let ke := cmdRecv (k0.command_string ++ "\r\n") k0
        (s1, ke.1, ke.2)
      else (s, k0, none)
    match sentStep with
    | (s1, k1, some e) => ({ s1 with cmd_object := some k1 }, some e)
    | (s1, k1, none) =>
      let line2 := if is_full_line then line ++ "\r\n" else line
      let ke2 := cmdRecv line2 k1
      let s2 := { s1 with cmd_object := some ke2.1 }
      match ke2.2 with
      | some e => (s2, some e)
      | none => ({ s2 with current_ret := ke2.1.current_ret }, none)

/-- Embeds `Sudo.on_new_line`: `try` the three parse calls in order,
swallowing `ParsingDone`; on normal completion fall through to
`super().on_new_line(...)` (the parameter `superStep`, the generic base
not being in this snapshot). -/
def sudo_on_new_line
    (cmdRecv : String → EmbeddedCmd → EmbeddedCmd × Option PyExc)
    (superStep : PStep SudoState) (line : String)
    (is_full_line : Bool) : PStep SudoState := fun s =>
  match pcatch
      (pseq (sudo_parse_sudo_password line)
        (pseq (sudo_parse_command_not_found line)
          (sudo_process_embedded cmdRecv line is_full_line))) s with
  | (s1, none) => superStep s1
  | (s1, some e) => (s1, some e)

/-! ### LastLogin (`moler/events/unix/last_login.py`) -/

/-- The `current_ret` dict built by `LastLogin._parse_last_login`;
fields are optional because `dateutil` may raise after `time`, `host`
and `date_raw` were already stored.  Time values are abstract clock
readings. -/
structure LastLoginRet where
  time : Option Nat
  host : Option String
  date_raw : Option String
  date : Option Nat
  deriving DecidableEq

/-- The empty `current_ret` dict. -/
def emptyLastLoginRet : LastLoginRet :=
  { time := none, host := none, date_raw := none, date := none }

/-- State of a `LastLogin` event: the dict under construction and the
occurrences reported so far (`event_occurred` of the event base, which
is not in this snapshot, is modelled as recording its argument). -/
structure LastLoginState where
  current_ret : LastLoginRet
  occurred : List LastLoginRet
  deriving DecidableEq

/-- Embeds `LastLogin._parse_last_login`.  The regex
`Last login:\s+(?P<DATE>\S.*\S)\s+from\s+(?P<HOST>\S+)` (`re.I` search)
is abstracted as the parameter `reMatch` returning the `DATE` and `HOST`
groups; `dateutil.parser.parse` as `dateParse` (it may raise on an
unparseable date string); `datetime.now()` as `now`.  On a match: store
`time`, `host`, `date_raw`, then the parsed `date`, report the dict via
`event_occurred`, reset `current_ret` and raise `ParsingDone`. -/
def lastlogin_parse (reMatch : String → Option (String × String))
    (dateParse : String → Except Nat Nat) (now : Nat)
    (line : String) : PStep LastLoginState := fun s =>
  match reMatch line with
  | none => (s, none)
  | some (dateStr, host) =>
    let r1 := { s.current_ret with
                 time := some now, host := some host,
                 date_raw := some dateStr }
    match dateParse dateStr with
    | .error n => ({ s with current_ret := r1 }, some (PyExc.other n))
    | .ok d =>
      let r2 := { r1 with date := some d }
      ({ current_ret := emptyLastLoginRet, occurred := s.occurred ++ [r2] },
        some PyExc.parsingDone)

/-- Embeds `LastLogin.on_new_line`: on a full line, `try` the parse
method, swallowing `ParsingDone`; there is no `super()` call. -/
def lastlogin_on_new_line (reMatch : String → Option (String × String))
    (dateParse : String → Except Nat Nat) (now : Nat) (line : String)
    (is_full_line : Bool) : PStep LastLoginState := fun s =>
  if is_full_line then pcatch (lastlogin_parse reMatch dateParse now line) s
  else (s, none)

/-! ### ExitConfigure (`moler/cmd/juniper/configure/exit_configure.py`) -/

/-- State of an `ExitConfigure` command: the observer fields touched by
`set_result` (modelled from the spec, the `ConnectionObserver` base is
not in this snapshot). -/
structure ExitConfigureState where
  done : Bool
  result : Option (List (String × String))
  deriving DecidableEq

/-- Modelled from the spec: inherited `set_result` — first call wins. -/
def exitconfigure_set_result (v : List (String × String))
    (s : ExitConfigureState) : ExitConfigureState :=
  if s.done then s else { s with done := true, result := some v }

/-- Embeds `ExitConfigure._is_target_prompt`: when the expected-prompt
regex (user-supplied, abstracted as `promptMatch`) matches, call
`set_result({})` and raise `ParsingDone`. -/
def exitconfigure_is_target_prompt (promptMatch : String → Bool)
    (line : String) : PStep ExitConfigureState := fun s =>
  if promptMatch line then
    (exitconfigure_set_result [] s, some PyExc.parsingDone)
  else (s, none)

/-- Embeds `ExitConfigure.on_new_line`: `try` the prompt check on every
line (whether full or not), swallowing `ParsingDone`; no `super()` call. -/
def exitconfigure_on_new_line (promptMatch : String → Bool)
    (line : String) (_is_full_line : Bool) : PStep ExitConfigureState :=
  fun s => pcatch (exitconfigure_is_target_prompt promptMatch line) s

/-! ### Sudo constructor (`Sudo.__init__`) -/

/-- Values stored in the parameter dict built by the `cmd_class_name`
branch of `Sudo.__init__`. -/
inductive PyVal where
  | connection (id : Nat)
  | prompt (p : Option String)
  | newlineChars (cs : Option (List String))
  | param (n : Nat)
  deriving DecidableEq

/-- Embeds the dict built inside `if cmd_class_name:` — a copy of
`cmd_params` (empty when `None`) with `connection`, `prompt` and
`newline_chars` entries assigned (the `runner` line is commented out in
the source).  The source never reads this dict again. -/
def sudoInitParams (conn : Nat) (prompt : Option String)
    (newline_chars : Option (List String))
    (cmd_params : Option (List (String × PyVal))) : List (String × PyVal) :=
  let params := match cmd_params with
    | some ps => ps
    | none => []
  dictSet "newline_chars" (PyVal.newlineChars newline_chars)
    (dictSet "prompt" (PyVal.prompt prompt)
      (dictSet "connection" (PyVal.connection conn) params))

/-- Python truthiness of `self.cmd_object` (`if not self.cmd_object:`):
`None` is falsy, a command object is truthy. -/
def sudoTruthy : Option EmbeddedCmd → Bool
  | none => false
  | some _ => true

/-- Embeds `Sudo.__init__`: initialise the flags, keep `cmd_object` as
passed; when `cmd_class_name` is given, build the parameter dict (which
is never used and never assigned to `cmd_object`); finally, when
`cmd_object` is falsy, call `set_exception(CommandFailure(...))`. -/
def sudo_init (sudo_password : String) (cmd_object : Option EmbeddedCmd)
    (cmd_class_name : Option String)
    (cmd_params : Option (List (String × PyVal)))
    (conn : Nat) (prompt : Option String)
    (newline_chars : Option (List String)) : SudoState :=
  let s0 : SudoState :=
    { sudo_password := sudo_password
      sent_sudo_password := false
      sent_command_string := false
      done := false
      exception := none
      sentToConnection := []
      cmd_object := cmd_object
      current_ret := [] }
  let _params :=
    match cmd_class_name with
    | some _ => some (sudoInitParams conn prompt newline_chars cmd_params)
    | none => none
  if ¬ sudoTruthy s0.cmd_object then
    sudoSetException commandFailureExc s0
  else s0

/-! ## Helper lemmas -/

theorem keyMem_cons (k : ObsKey) (kv : ObsKey × α) (l : List (ObsKey × α)) :
    keyMem k (kv :: l) = (decide (kv.1 = k) || keyMem k l) := by
  simp [keyMem]

theorem keyMem_append_self (k : ObsKey) (v : α) (l : List (ObsKey × α)) :
    keyMem k (l ++ [(k, v)]) = true := by
  simp [keyMem]

theorem keyMem_append_single (k k' : ObsKey) (v : α) (l : List (ObsKey × α)) :
    keyMem k (l ++ [(k', v)]) = (keyMem k l || decide (k' = k)) := by
  simp [keyMem]

theorem keyErase_append_fresh (k : ObsKey) (v : α) (l : List (ObsKey × α))
    (h : keyMem k l = false) : keyErase k (l ++ [(k, v)]) = l := by
  induction l with
  | nil => simp [keyErase]
  | cons kv rest ih =>
    rw [keyMem_cons, Bool.or_eq_false_iff] at h
    have h1 : ¬ kv.1 = k := by simpa using h.1
    simp [keyErase, h1, ih h.2]

theorem keyMem_iff_mem_map (k : ObsKey) (l : List (ObsKey × α)) :
    keyMem k l = true ↔ k ∈ l.map Prod.fst := by
  simp [keyMem, List.any_eq_true, List.mem_map]

theorem keyMem_keyErase_self (k : ObsKey) (l : List (ObsKey × α))
    (h : (l.map Prod.fst).Nodup) : keyMem k (keyErase k l) = false := by
  induction l with
  | nil => simp [keyErase, keyMem]
  | cons kv rest ih =>
    rw [List.map_cons, List.nodup_cons] at h
    by_cases hk : kv.1 = k
    · subst hk
      rw [keyErase, if_pos rfl, Bool.eq_false_iff]
      intro hmem
      exact h.1 ((keyMem_iff_mem_map _ _).mp hmem)
    · rw [keyErase, if_neg hk, keyMem_cons, Bool.or_eq_false_iff]
      exact ⟨by simpa using hk, ih h.2⟩

theorem keyLookup_keyErase_ne (k k' : ObsKey) (l : List (ObsKey × α))
    (h : k' ≠ k) : keyLookup k' (keyErase k l) = keyLookup k' l := by
  induction l with
  | nil => rfl
  | cons kv rest ih =>
    by_cases hk : kv.1 = k
    · simp [keyErase, hk, keyLookup, Ne.symm h]
    · simp [keyErase, hk, keyLookup, ih]

/-! ## Claim theorems: subscription registry -/

/-- C4: `subscribe` is idempotent under the subscription key
`(subject_id, function_id)`: registering the same bound method twice
yields exactly one subscription (the second call leaves the connection
unchanged); registering the same class function from two different
subjects yields two distinct subscriptions; and a free callback's key
uses the fixed sentinel subject id `0`. -/
theorem subscribe_key_idempotent_and_distinct
    (c : ObservableConnection β γ) (v v' : β) (hd hd' : γ)
    (s1 s2 f g : Nat) (hs : s1 ≠ s2)
    (h1 : keyMem (s1, f) c.observers = false)
    (h2 : keyMem (s2, f) c.observers = false) :
    subscribe (CallbackRef.boundMethod s1 f) v hd
        (subscribe (CallbackRef.boundMethod s1 f) v hd c)
      = subscribe (CallbackRef.boundMethod s1 f) v hd c
  ∧ (subscribe (CallbackRef.boundMethod s2 f) v' hd'
        (subscribe (CallbackRef.boundMethod s1 f) v hd c)).observers.length
      = c.observers.length + 2
  ∧ getObserverKey (CallbackRef.freeFunc g) = (0, g) := by
  have hadd : subscribe (CallbackRef.boundMethod s1 f) v hd c
      = { c with observers := c.observers ++ [((s1, f), v)],
                 closedHandlers := c.closedHandlers ++ [((s1, f), hd)] } := by
    simp only [subscribe, getObserverKey]
    rw [if_neg (by simp [h1])]
  refine ⟨?_, ?_, rfl⟩
  · rw [hadd]
    simp only [subscribe, getObserverKey]
    rw [if_pos (keyMem_append_self _ _ _)]
  · rw [hadd]
    have hne : keyMem (s2, f) (c.observers ++ [((s1, f), v)]) = false := by
      rw [keyMem_append_single]
      simp [h2, Prod.ext_iff, hs]
    simp only [subscribe, getObserverKey]
    rw [if_neg (by simp [hne])]
    simp

/-- C4 witness: concrete instantiation — subjects `1 ≠ 2`, class
function `10`, fresh keys on the empty connection. -/
theorem subscribe_key_idempotent_and_distinct_witness :
    subscribe (CallbackRef.boundMethod 1 10) 0 0
        (subscribe (CallbackRef.boundMethod 1 10) 0 0
          ({ observers := [], closedHandlers := [], is_open := true } :
            ObservableConnection Nat Nat))
      = subscribe (CallbackRef.boundMethod 1 10) 0 0
          { observers := [], closedHandlers := [], is_open := true } :=
  (subscribe_key_idempotent_and_distinct
    { observers := [], closedHandlers := [], is_open := true }
    0 0 0 0 1 2 10 11 (by decide) rfl rfl).1

/-- C7: with duplicate-free registries, `unsubscribe` of a key present
in both dicts removes exactly that key from both (without warning);
`unsubscribe` of a key absent from either dict leaves the connection
unchanged, raises nothing (the embedding is a total function) and takes
the warning branch. -/
theorem unsubscribe_present_absent (cb : CallbackRef)
    (c : ObservableConnection β γ)
    (hO : (c.observers.map Prod.fst).Nodup)
    (hH : (c.closedHandlers.map Prod.fst).Nodup) :
    (keyMem (getObserverKey cb) c.observers = true →
     keyMem (getObserverKey cb) c.closedHandlers = true →
       keyMem (getObserverKey cb) (unsubscribe cb c).observers = false ∧
       keyMem (getObserverKey cb) (unsubscribe cb c).closedHandlers = false ∧
       (∀ k', k' ≠ getObserverKey cb →
          keyLookup k' (unsubscribe cb c).observers
            = keyLookup k' c.observers) ∧
       (∀ k', k' ≠ getObserverKey cb →
          keyLookup k' (unsubscribe cb c).closedHandlers
            = keyLookup k' c.closedHandlers) ∧
       unsubscribeWarns cb c = false)
  ∧ ((keyMem (getObserverKey cb) c.observers = false ∨
      keyMem (getObserverKey cb) c.closedHandlers = false) →
       unsubscribe cb c = c ∧ unsubscribeWarns cb c = true) := by
  constructor
  · intro hmO hmH
    have hu : unsubscribe cb c
        = { c with
             observers := keyErase (getObserverKey cb) c.observers,
             closedHandlers := keyErase (getObserverKey cb) c.closedHandlers } := by
      simp only [unsubscribe]
      rw [if_pos ⟨hmO, hmH⟩]
    refine ⟨?_, ?_, ?_, ?_, ?_⟩
    · rw [hu]
      exact keyMem_keyErase_self _ _ hO
    · rw [hu]
      exact keyMem_keyErase_self _ _ hH
    · intro k' hk'
      rw [hu]
      exact keyLookup_keyErase_ne _ _ _ hk'
    · intro k' hk'
      rw [hu]
      exact keyLookup_keyErase_ne _ _ _ hk'
    · simp [unsubscribeWarns, hmO, hmH]
  · intro habs
    have hcond : ¬ (keyMem (getObserverKey cb) c.observers = true ∧
        keyMem (getObserverKey cb) c.closedHandlers = true) := by
      rcases habs with h | h <;> simp [h]
    constructor
    · simp only [unsubscribe]
      rw [if_neg hcond]
    · simp [unsubscribeWarns, hcond]

/-- C7 witness: an absent key on a singleton connection leaves it
unchanged. -/
theorem unsubscribe_present_absent_witness :
    unsubscribe (CallbackRef.boundMethod 9 9)
        ({ observers := [((1, 2), 5)], closedHandlers := [((1, 2), 7)],
           is_open := true } : ObservableConnection Nat Nat)
      = { observers := [((1, 2), 5)], closedHandlers := [((1, 2), 7)],
          is_open := true } :=
  ((unsubscribe_present_absent (CallbackRef.boundMethod 9 9)
      { observers := [((1, 2), 5)], closedHandlers := [((1, 2), 7)],
        is_open := true }
      (by decide) (by decide)).2 (Or.inl (by decide))).1

/-- C9: on a connection where the callback's key is registered in
neither dict, `subscribe` followed by `unsubscribe` is the identity:
both the subscriber map and the close-handler map return to their prior
state. -/
theorem subscribe_unsubscribe_roundtrip (cb : CallbackRef) (v : β) (hd : γ)
    (c : ObservableConnection β γ)
    (h1 : keyMem (getObserverKey cb) c.observers = false)
    (h2 : keyMem (getObserverKey cb) c.closedHandlers = false) :
    unsubscribe cb (subscribe cb v hd c) = c := by
  have hadd : subscribe cb v hd c
      = { c with
           observers := c.observers ++ [(getObserverKey cb, v)],
           closedHandlers := c.closedHandlers ++ [(getObserverKey cb, hd)] } := by
    simp only [subscribe]
    rw [if_neg (by simp [h1])]
  rw [hadd]
  simp only [unsubscribe]
  rw [if_pos ⟨keyMem_append_self _ _ _, keyMem_append_self _ _ _⟩]
  simp [keyErase_append_fresh _ _ _ h1, keyErase_append_fresh _ _ _ h2]

/-- C9 witness: round trip of a free callback on a connection already
holding one unrelated subscription. -/
theorem subscribe_unsubscribe_roundtrip_witness :
    unsubscribe (CallbackRef.freeFunc 4)
        (subscribe (CallbackRef.freeFunc 4) 8 9
          ({ observers := [((1, 2), 5)], closedHandlers := [((1, 2), 7)],
             is_open := true } : ObservableConnection Nat Nat))
      = { observers := [((1, 2), 5)], closedHandlers := [((1, 2), 7)],
          is_open := true } :=
  subscribe_unsubscribe_roundtrip (CallbackRef.freeFunc 4) 8 9
    { observers := [((1, 2), 5)], closedHandlers := [((1, 2), 7)],
      is_open := true } (by decide) (by decide)

/-! ## Claim theorems: shutdown (C2) -/

/-- Discriminator for handler-invocation events in a shutdown trace. -/
def isHandlerCall : ShutdownEvent γ → Bool
  | .handlerCalled _ => true
  | .markedClosed => false

/-- Concrete connection used to refute C2: one subscription with one
registered close handler. -/
def c2conn : ObservableConnection Nat Nat :=
  { observers := [((1, 2), 5)], closedHandlers := [((1, 2), 7)],
    is_open := true }

/-- C2 counterexample: on `c2conn`, `shutdown()` does not clear the
subscriber map, and a second (re-entrant) `shutdown()` call is not a
no-op — its trace still invokes the close handler. -/
theorem shutdown_claim_counterexample :
    ¬ ((shutdown c2conn).observers = [] ∧
       (shutdownTrace (shutdown c2conn)).filter isHandlerCall = []) := by
  decide

theorem count_handlerCalled_map [DecidableEq γ] (hd : γ)
    (l : List (ObsKey × γ)) :
    (l.map (fun kv => ShutdownEvent.handlerCalled kv.2)).count
        (ShutdownEvent.handlerCalled hd)
      = l.countP (fun kv => kv.2 = hd) := by
  induction l with
  | nil => rfl
  | cons kv rest ih =>
    by_cases h : kv.2 = hd
    · simp [List.count_cons, List.countP_cons, h, ih]
    · simp [List.count_cons, List.countP_cons, h, ih,
        fun hh : ShutdownEvent.handlerCalled kv.2
            = ShutdownEvent.handlerCalled hd =>
          h (ShutdownEvent.handlerCalled.injEq .. ▸ hh)]

/-- C2 amended: `shutdown()` invokes each registered close-handler
exactly as many times as it is registered (so exactly once for each
handler registered once), all invocations happen before the base class
marks the connection closed, the subscriber map and close-handler map
are left unchanged, and a second `shutdown()` call repeats the handler
invocations (it is not a no-op). -/
theorem shutdown_handlers_once_before_close [DecidableEq γ]
    (c : ObservableConnection β γ) (hd : γ) :
    (shutdownTrace c).count (ShutdownEvent.handlerCalled hd)
        = c.closedHandlers.countP (fun kv => kv.2 = hd)
  ∧ (shutdownTrace c).getLast? = some ShutdownEvent.markedClosed
  ∧ (∀ e ∈ (shutdownTrace c).dropLast, isHandlerCall e = true)
  ∧ (shutdown c).observers = c.observers
  ∧ (shutdown c).closedHandlers = c.closedHandlers
  ∧ (shutdown c).is_open = false
  ∧ shutdownTrace (shutdown c) = shutdownTrace c := by
  refine ⟨?_, ?_, ?_, rfl, rfl, rfl, rfl⟩
  · rw [shutdownTrace, List.count_append, count_handlerCalled_map]
    simp [List.count_singleton]
  · rw [shutdownTrace]
    exact List.getLast?_concat _
  · intro e he
    rw [shutdownTrace, List.dropLast_concat] at he
    obtain ⟨kv, _, rfl⟩ := List.mem_map.mp he
    rfl

/-! ## Claim theorems: observer terminal transitions (C5) -/

/-- C5: among `set_result`, `set_exception` and `cancel` the first call
wins and sets `done`; every later call to any of the three is a no-op;
and after `set_result v1` any further `set_result v2` or
`set_exception e` leaves `result()` equal to `v1`. -/
theorem terminal_transitions_first_wins (o : ConnObserver V) (v1 v2 : V)
    (e e2 : Nat) (h1 : o.done = false) (h2 : o.exception = none) :
    (set_result v1 o).done = true
  ∧ (set_exception e o).done = true
  ∧ (cancel o).done = true
  ∧ set_result v2 (set_result v1 o) = set_result v1 o
  ∧ set_exception e (set_result v1 o) = set_result v1 o
  ∧ cancel (set_result v1 o) = set_result v1 o
  ∧ set_result v2 (set_exception e o) = set_exception e o
  ∧ set_exception e2 (set_exception e o) = set_exception e o
  ∧ cancel (set_exception e o) = set_exception e o
  ∧ set_result v2 (cancel o) = cancel o
  ∧ set_exception e (cancel o) = cancel o
  ∧ cancel (cancel o) = cancel o
  ∧ obsResult (set_result v2 (set_result v1 o)) = Except.ok (some v1)
  ∧ obsResult (set_exception e (set_result v1 o)) = Except.ok (some v1) := by
  simp [set_result, set_exception, cancel, obsResult, h1, h2]

/-- C5 witness: concrete fresh observer, `set_result 1` wins over
`set_result 2`. -/
theorem terminal_transitions_first_wins_witness :
    (set_result 1 (⟨false, false, none, none, []⟩ : ConnObserver Nat)).done
      = true :=
  (terminal_transitions_first_wins ⟨false, false, none, none, []⟩
    1 2 5 6 rfl rfl).1

/-! ## Claim theorems: shutdown barrier and done-stickiness (C1) -/

/-- C1: a chunk fed into the connection's `data_received` is never
forwarded to an observer that is already terminal (its submitted state
is untouched by delivery), and after the runner's `shutdown()` has
returned no observer state changes at all — in particular no
`all_data_received` buffer ever grows again. -/
theorem no_delivery_after_shutdown_or_done (w : RunnerWorld V)
    (data : String) :
    (worldDataReceived data (runnerShutdown w)).observers = w.observers
  ∧ (∀ (i : Nat) (s : SubmittedObserver V),
      w.observers[i]? = some s → s.obs.done = true →
      (worldDataReceived data w).observers[i]? = some s) := by
  constructor
  · by_cases h : w.connOpen = true <;>
      simp [worldDataReceived, runnerShutdown, shimStep, h]
  · intro i s hget hdone
    by_cases h : w.connOpen = true
    · simp [worldDataReceived, h, hget, shimStep, hdone]
    · simp [worldDataReceived, h, hget]

/-- Observer used by the C1 witness: terminal, with one chunk already
collected (the scenario of
`test_runner_secures_observer_against_additional_data_after_observer_is_done`). -/
def c1done : SubmittedObserver Nat :=
  { obs := ⟨true, false, some 7, none, ["61 bytes"]⟩
    behavior := fun d o =>
      Except.ok { o with all_data_received := o.all_data_received ++ [d] }
    futureException := none
    subscribed := true }

/-- World used by the C1 witness. -/
def c1world : RunnerWorld Nat :=
  { shuttingDown := false, connOpen := true, observers := [c1done] }

/-- C1 witness: feeding `"62 bytes"` to the world holding the already
done observer leaves its submitted state untouched. -/
theorem no_delivery_after_shutdown_or_done_witness :
    (worldDataReceived "62 bytes" c1world).observers[0]? = some c1done :=
  (no_delivery_after_shutdown_or_done c1world "62 bytes").2 0 c1done rfl rfl

/-! ## Claim theorems: exception containment (C3) -/

/-- C3: when one subscriber's callback raises during delivery of a
chunk, the delivery function returns normally and: the raising observer
is done with the exception stored on it and its result, cancellation
flag and future untouched (`DONE_FAIL`, exception on the observer, not
on the future); every other subscriber's delivery is exactly the normal
shim step on that same chunk, unaffected by the failure. -/
theorem observer_exception_contained (w : RunnerWorld V) (i : Nat)
    (si : SubmittedObserver V) (e : Nat) (data : String)
    (hopen : w.connOpen = true) (hsd : w.shuttingDown = false)
    (hi : w.observers[i]? = some si) (hsub : si.subscribed = true)
    (hdone : si.obs.done = false)
    (hraise : si.behavior data si.obs = Except.error e) :
    ((worldDataReceived data w).observers[i]?).map (fun s => s.obs.done)
        = some true
  ∧ ((worldDataReceived data w).observers[i]?).map (fun s => s.obs.exception)
        = some (some e)
  ∧ ((worldDataReceived data w).observers[i]?).map (fun s => s.obs.result)
        = some si.obs.result
  ∧ ((worldDataReceived data w).observers[i]?).map (fun s => s.obs.cancelled)
        = some si.obs.cancelled
  ∧ ((worldDataReceived data w).observers[i]?).map
        (fun s => s.futureException)
        = some si.futureException
  ∧ (∀ (j : Nat) (sj : SubmittedObserver V), j ≠ i →
       w.observers[j]? = some sj →
       (worldDataReceived data w).observers[j]?
         = some (if sj.subscribed then shimStep false data sj else sj)) := by
  refine ⟨?_, ?_, ?_, ?_, ?_, ?_⟩
  · simp [worldDataReceived, hopen, hi, hsub, hsd, shimStep, hdone, hraise,
      set_exception]
  · simp [worldDataReceived, hopen, hi, hsub, hsd, shimStep, hdone, hraise,
      set_exception]
  · simp [worldDataReceived, hopen, hi, hsub, hsd, shimStep, hdone, hraise,
      set_exception]
  · simp [worldDataReceived, hopen, hi, hsub, hsd, shimStep, hdone, hraise,
      set_exception]
  · simp [worldDataReceived, hopen, hi, hsub, hsd, shimStep, hdone, hraise,
      set_exception]
  · intro j sj _ hj
    simp [worldDataReceived, hopen, hj, hsd]

/-- Fresh (non-terminal) observer state shared by the C3 witness. -/
def freshObs : ConnObserver Nat :=
  ⟨false, false, none, none, []⟩

/-- Behaviour of the failing observer of scenario S5: raises exception
`9` on the chunk `"zero bytes"`, otherwise collects the chunk. -/
def failBehavior : String → ConnObserver Nat → Except Nat (ConnObserver Nat) :=
  fun d o =>
    if d = "zero bytes" then Except.error 9
    else Except.ok { o with all_data_received := o.all_data_received ++ [d] }

/-- Behaviour of the well-behaved observer of scenario S5. -/
def okBehavior : String → ConnObserver Nat → Except Nat (ConnObserver Nat) :=
  fun d o => Except.ok { o with all_data_received := o.all_data_received ++ [d] }

/-- The failing submitted observer of the C3 witness. -/
def s5fail : SubmittedObserver Nat :=
  { obs := freshObs, behavior := failBehavior
    futureException := none, subscribed := true }

/-- The well-behaved submitted observer of the C3 witness. -/
def s5ok : SubmittedObserver Nat :=
  { obs := freshObs, behavior := okBehavior
    futureException := none, subscribed := true }

/-- Two-observer world of scenario S5. -/
def s5world : RunnerWorld Nat :=
  { shuttingDown := false, connOpen := true, observers := [s5fail, s5ok] }

/-- C3 witness: on chunk `"zero bytes"` the raising observer of
`s5world` ends with exception `9` stored on it. -/
theorem observer_exception_contained_witness :
    ((worldDataReceived "zero bytes" s5world).observers[0]?).map
        (fun s => s.obs.exception) = some (some 9) :=
  (observer_exception_contained s5world 0 s5fail 9 "zero bytes"
    rfl rfl rfl rfl rfl (by simp [s5fail, failBehavior])).2.1

/-! ## Claim theorems: dead weak subscriptions (C6) -/

theorem notifyOneE_dead (data : δ) (en : NotifyEntry δ σ)
    (hdead : en.isDead = true) (w : σ) :
    notifyOneE data w en = Except.ok w := by
  obtain ⟨so, fc⟩ := en
  cases fc with
  | dead => rfl
  | live f =>
    cases so with
    | none => simp [NotifyEntry.isDead] at hdead
    | some cell =>
      cases cell with
      | live a => simp [NotifyEntry.isDead] at hdead
      | dead => rfl

theorem notifyOneE_total (data : δ) (w : σ) (en : NotifyEntry δ σ) :
    ∃ w', notifyOneE data w en = Except.ok w' := by
  obtain ⟨so, fc⟩ := en
  cases fc with
  | dead => exact ⟨w, rfl⟩
  | live f =>
    have hcall : ∀ (hso : Option (WeakCell Unit)),
        (∃ w', callEntry data w
            (⟨hso, WeakCell.live f⟩ : NotifyEntry δ σ) = Except.ok w') ∨
        (∃ er, callEntry data w
            (⟨hso, WeakCell.live f⟩ : NotifyEntry δ σ) = Except.error er) := by
      intro hso
      cases hso with
      | none =>
        rcases hf : f data w with w' | n
        · exact Or.inr ⟨PyError.exc w', by simp [callEntry, hf]⟩
        · exact Or.inl ⟨n, by simp [callEntry, hf]⟩
      | some cell =>
        cases cell with
        | dead => exact Or.inr ⟨PyError.referenceError, rfl⟩
        | live a =>
          rcases hf : f data w with w' | n
          · exact Or.inr ⟨PyError.exc w', by simp [callEntry, hf]⟩
          · exact Or.inl ⟨n, by simp [callEntry, hf]⟩
    rcases hcall so with ⟨w', hw⟩ | ⟨er, her⟩
    · exact ⟨w', by simp [notifyOneE, fmtProxy, tryExcept, hw]⟩
    · exact ⟨w, by simp [notifyOneE, fmtProxy, tryExcept, her, isExceptionInstance]⟩

/-- C6: a subscription whose weak target (subject or callback) was
collected before delivery is skipped silently: its per-entry step raises
nothing and leaves the world unchanged, every per-entry step raises
nothing at all, and the fan-out over a snapshot containing the dead
entry delivers exactly as the same snapshot without it (so the dead
observer is not retained in the delivery). -/
theorem dead_subscription_silently_skipped (data : δ) (w : σ)
    (en : NotifyEntry δ σ) (pre post : List (NotifyEntry δ σ))
    (hdead : en.isDead = true) :
    notifyOneE data w en = Except.ok w
  ∧ (∀ (w2 : σ) (en2 : NotifyEntry δ σ),
      ∃ w3, notifyOneE data w2 en2 = Except.ok w3)
  ∧ notifyObservers data (pre ++ en :: post) w
      = notifyObservers data (pre ++ post) w := by
  refine ⟨notifyOneE_dead data en hdead w,
    fun w2 en2 => notifyOneE_total data w2 en2, ?_⟩
  have hskip : ∀ w', notifyOne data w' en = w' := by
    intro w'
    rw [notifyOne, notifyOneE_dead data en hdead w']
  rw [notifyObservers, notifyObservers, List.foldl_append, List.foldl_append,
    List.foldl_cons, hskip]

/-- Live entry of the C6 witness: a free callback collecting chunks. -/
def c6live : NotifyEntry String (List String) :=
  { selfOrNone := none
    funcCell := WeakCell.live (fun d w => Except.ok (w ++ [d])) }

/-- Dead entry of the C6 witness: a bound method whose subject was
collected. -/
def c6dead : NotifyEntry String (List String) :=
  { selfOrNone := some WeakCell.dead
    funcCell := WeakCell.live (fun d w => Except.ok (w ++ [d])) }

/-- C6 witness: with the dead entry first in the snapshot, notification
delivers exactly as if only the live entry were subscribed. -/
theorem dead_subscription_silently_skipped_witness :
    notifyObservers "61 bytes" [c6dead, c6live] ([] : List String)
      = notifyObservers "61 bytes" [c6live] ([] : List String) :=
  (dead_subscription_silently_skipped "61 bytes" [] c6dead [] [c6live]
    rfl).2.2

/-! ## Claim theorems: the ParsingDone sentinel (C8) -/

theorem pcatch_snd_ne (a : PStep σ) (s : σ) :
    (pcatch a s).2 ≠ some PyExc.parsingDone := by
  rcases ha : a s with ⟨s', e⟩
  match e with
  | none => simp [pcatch, ha]
  | some PyExc.parsingDone => simp [pcatch, ha]
  | some (PyExc.other n) => simp [pcatch, ha]

theorem du_on_new_line_no_escape (superStep : PStep DuState)
    (hsuper : ∀ s, (superStep s).2 ≠ some PyExc.parsingDone)
    (line : String) (full : Bool) (s : DuState) :
    (du_on_new_line superStep line full s).2 ≠ some PyExc.parsingDone := by
  simp only [du_on_new_line]
  by_cases hfull : full = true
  · rw [if_pos hfull]
    rcases hr : pcatch (du_parse_du line) s with ⟨s1, e1⟩
    have he1 := pcatch_snd_ne (du_parse_du line) s
    rw [hr] at he1
    cases e1 with
    | none => exact hsuper s1
    | some pe => simpa using he1
  · rw [if_neg hfull]
    exact hsuper s

theorem sudo_on_new_line_no_escape
    (cmdRecv : String → EmbeddedCmd → EmbeddedCmd × Option PyExc)
    (superStep : PStep SudoState)
    (hsuper : ∀ s, (superStep s).2 ≠ some PyExc.parsingDone)
    (line : String) (full : Bool) (s : SudoState) :
    (sudo_on_new_line cmdRecv superStep line full s).2
      ≠ some PyExc.parsingDone := by
  simp only [sudo_on_new_line]
  rcases hr : pcatch
      (pseq (sudo_parse_sudo_password line)
        (pseq (sudo_parse_command_not_found line)
          (sudo_process_embedded cmdRecv line full))) s with ⟨s1, e1⟩
  have he1 := pcatch_snd_ne
    (pseq (sudo_parse_sudo_password line)
      (pseq (sudo_parse_command_not_found line)
        (sudo_process_embedded cmdRecv line full))) s
  rw [hr] at he1
  cases e1 with
  | none => exact hsuper s1
  | some pe => simpa using he1

theorem lastlogin_on_new_line_no_escape
    (reMatch : String → Option (String × String))
    (dateParse : String → Except Nat Nat) (now : Nat)
    (line : String) (full : Bool) (s : LastLoginState) :
    (lastlogin_on_new_line reMatch dateParse now line full s).2
      ≠ some PyExc.parsingDone := by
  simp only [lastlogin_on_new_line]
  by_cases hfull : full = true
  · rw [if_pos hfull]
    exact pcatch_snd_ne _ s
  · rw [if_neg hfull]
    simp

theorem exitconfigure_on_new_line_no_escape (promptMatch : String → Bool)
    (line : String) (full : Bool) (s : ExitConfigureState) :
    (exitconfigure_on_new_line promptMatch line full s).2
      ≠ some PyExc.parsingDone := by
  simp only [exitconfigure_on_new_line]
  exact pcatch_snd_ne _ s

/-- C8: for every concrete parser (Du, Sudo, LastLogin, ExitConfigure)
and every input line, the `ParsingDone` sentinel raised by an internal
parse method is swallowed inside `on_new_line` and never escapes to the
caller of `on_new_line` (for Du and Sudo this relies on the generic base
`on_new_line`, not in this snapshot, likewise swallowing it — the
hypotheses on the `superStep` parameters). -/
theorem parsingdone_never_escapes
    (cmdRecv : String → EmbeddedCmd → EmbeddedCmd × Option PyExc)
    (duSuper : PStep DuState) (sudoSuper : PStep SudoState)
    (reMatch : String → Option (String × String))
    (dateParse : String → Except Nat Nat) (now : Nat)
    (promptMatch : String → Bool) (line : String) (full : Bool)
    (sd : DuState) (ss : SudoState) (sl : LastLoginState)
    (se : ExitConfigureState)
    (hduSuper : ∀ s, (duSuper s).2 ≠ some PyExc.parsingDone)
    (hsudoSuper : ∀ s, (sudoSuper s).2 ≠ some PyExc.parsingDone) :
    (du_on_new_line duSuper line full sd).2 ≠ some PyExc.parsingDone
  ∧ (sudo_on_new_line cmdRecv sudoSuper line full ss).2
      ≠ some PyExc.parsingDone
  ∧ (lastlogin_on_new_line reMatch dateParse now line full sl).2
      ≠ some PyExc.parsingDone
  ∧ (exitconfigure_on_new_line promptMatch line full se).2
      ≠ some PyExc.parsingDone :=
  ⟨du_on_new_line_no_escape duSuper hduSuper line full sd,
   sudo_on_new_line_no_escape cmdRecv sudoSuper hsudoSuper line full ss,
   lastlogin_on_new_line_no_escape reMatch dateParse now line full sl,
   exitconfigure_on_new_line_no_escape promptMatch line full se⟩

/-- C8 witness: a `du` output line on concrete parser states, with a
benign generic base. -/
theorem parsingdone_never_escapes_witness :
    (du_on_new_line (fun s => (s, none)) "12      ." true
        (⟨[]⟩ : DuState)).2 ≠ some PyExc.parsingDone :=
  (parsingdone_never_escapes (fun _ k => (k, none)) (fun s => (s, none))
    (fun s => (s, none)) (fun _ => none) (fun _ => Except.ok 0) 0
    (fun _ => false) "12      ." true ⟨[]⟩
    ⟨"pw", false, false, false, none, [], none, []⟩
    ⟨emptyLastLoginRet, []⟩ ⟨false, none⟩
    (fun _ => by simp) (fun _ => by simp)).1

/-! ## Claim theorems: the Sudo constructor (C10) -/

/-- C10: a `Sudo` constructed with `cmd_object = None` has
`set_exception(CommandFailure(...))` invoked during construction, no
matter what `cmd_class_name` and `cmd_params` are supplied — the
`cmd_class_name` branch builds a parameter dict but never assigns
`cmd_object`, which also stays `None` in the resulting state. -/
theorem sudo_init_none_cmd_object_sets_exception (pw : String)
    (ccn : Option String) (cp : Option (List (String × PyVal)))
    (conn : Nat) (pr : Option String) (nl : Option (List String)) :
    (sudo_init pw none ccn cp conn pr nl).exception = some commandFailureExc
  ∧ (sudo_init pw none ccn cp conn pr nl).done = true
  ∧ (sudo_init pw none ccn cp conn pr nl).cmd_object = none := by
  refine ⟨?_, ?_, ?_⟩ <;>
    simp [sudo_init, sudoTruthy, sudoSetException]

end Moler
